import Mathlib

/-!
Verification development for the neutrino simulation engine
(`simulator.py` and `icecube_tools/detector/angular_resolution.py`).

The Python source is shallowly embedded: floating-point quantities are
modelled as real numbers (exact arithmetic), except where IEEE special
values (NaN from `0/0`, non-finite quotients from division by zero) are
observable, which are modelled explicitly.  Random draws consumed by the
code (`np.random.*`, flux-model sampling, the Bernoulli acceptance draw)
are passed in as explicit oracle functions, so every statement is about
the deterministic data flow of the code for given draws.
-/

open Real

/-- Source spatial type: the source pulls the two tag values
`DIFFUSE` and `POINT` from the `source_model` module.  A source is
tagged with exactly one of the two values. -/
inductive SourceType
  | POINT
  | DIFFUSE
  deriving DecidableEq, Repr

/-- Modelled from the spec: the source module (`source_model.py`) is not
part of the given core, so a source is modelled by the capabilities the
engine consumes (spec section 6): its spatial type, the flux model's
upper energy bound `flux_model._upper_energy`, and the flux model's
sampling routine `flux_model.sample(1)[0]`, whose draw for event `e`,
rejection attempt `k` is given by the oracle function `flux_sample e k`. -/
structure SourceModel where
  source_type : SourceType
  upper_energy : ℝ
  flux_sample : ℕ → ℕ → ℝ

/-- Modelled from the spec: the detector module (`detector.py`) is not
part of the given core; the spec (sections 3 and 6) treats the detector
as an opaque capability bundle with three models, consumed by the engine
as `effective_area.detection_probability(Etrue, cosz, max_energy)`,
`energy_resolution.sample(Etrue)` and
`angular_resolution.sample(Etrue, ra, dec)`. -/
structure Detector where
  effective_area : ℝ → ℝ → ℝ → ℝ
  energy_resolution : ℝ → ℝ
  angular_resolution : ℝ → ℝ → ℝ → ℝ × ℝ

/-- The ephemeral per-trial record of `Simulator.run`: the chosen source
index `label`, the sampled true energy and the sampled true direction. -/
structure Trial where
  label : ℕ
  Etrue : ℝ
  ra : ℝ
  dec : ℝ

/-- The six accumulator lists initialised at lines 109-114 of
`Simulator.run`: `self.true_energy`, `self.reco_energy`,
`self.coordinate` (the `SkyCoord` list, modelled as ra-dec pairs),
`self.ra`, `self.dec` and `self.source_label`. -/
structure Catalog where
  true_energy : List ℝ
  reco_energy : List ℝ
  coordinate : List (ℝ × ℝ)
  ra : List ℝ
  dec : List ℝ
  source_label : List ℕ

/-- The freshly initialised (all-empty) accumulator state. -/
def Catalog.empty : Catalog := ⟨[], [], [], [], [], []⟩

/-- The random draws consumed by one call of `Simulator.run`:
`label e` is the `np.random.choice` source index for event `e`;
`sphere_u e k` / `sphere_v e k` are the two `np.random.uniform(0, 1)`
draws made by `sphere_sample` at event `e`, attempt `k`; and
`flip e k p` is the outcome of the Bernoulli acceptance draw
`np.random.choice([True, False], p=[p, 1-p])` at event `e`, attempt `k`,
given success probability `p`. -/
structure RandomOracle where
  label : ℕ → ℕ
  sphere_u : ℕ → ℕ → ℝ
  sphere_v : ℕ → ℕ → ℝ
  flip : ℕ → ℕ → ℝ → Bool

/-- Error values the spec names for the weighting step (spec sections
4.4 and 7). -/
inductive SimError
  | domainError
  | configurationError
  deriving DecidableEq, Repr

/-- Python runtime errors relevant to the embedded code. -/
inductive PyError
  | typeError
  deriving DecidableEq, Repr

/-- `spherical_to_icrs(theta, phi)` from `simulator.py`:
`ra = phi`, `dec = pi/2 - theta`. -/
noncomputable def spherical_to_icrs (theta phi : ℝ) : ℝ × ℝ :=
  (phi, π / 2 - theta)

/-- `sphere_sample(radius=1)` from `simulator.py`, with its two
`np.random.uniform(0, 1)` draws `u`, `v` made explicit as arguments:
`phi = 2*pi*u`, `theta = arccos(2*v - 1)`, then `spherical_to_icrs`.
The `radius` parameter appears in the source signature (default `1`)
and is never mentioned in the body. -/
noncomputable def sphere_sample (radius : ℝ) (u v : ℝ) : ℝ × ℝ :=
  let phi := 2 * π * u
  let theta := Real.arccos (2 * v - 1)
  spherical_to_icrs theta phi

/-- `icrs_to_unit_vector(ra, dec)` from `angular_resolution.py`:
`theta = pi/2 - dec`, `phi = ra`, returning
`(sin theta * cos phi, sin theta * sin phi, cos theta)`. -/
noncomputable def icrs_to_unit_vector (ra dec : ℝ) : ℝ × ℝ × ℝ :=
  let theta := π / 2 - dec
  let phi := ra
  (Real.sin theta * Real.cos phi, Real.sin theta * Real.sin phi, Real.cos theta)

/-- `unit_vector_to_icrs(unit_vector)` from `angular_resolution.py`:
`phi = np.arctan(y / x)` (single-argument arctangent), `theta =
arccos(z)`, `ra = phi`, `dec = pi/2 - theta`.  The IEEE semantics of
`np.arctan(y / x)` are modelled explicitly: for `x ≠ 0` the quotient is
finite and `phi = arctan (y / x)`; for `x = 0, y ≠ 0` the quotient is
`±inf` and `np.arctan` returns `±pi/2`; for `x = y = 0` the quotient is
NaN (`0/0`), `np.arctan(nan)` is NaN, and the returned `ra` is NaN —
that non-finite outcome is modelled as `none` (no exception is raised). -/
noncomputable def unit_vector_to_icrs (v : ℝ × ℝ × ℝ) : Option (ℝ × ℝ) :=
  let x := v.1
  let y := v.2.1
  let z := v.2.2
  if x = 0 then
    if y = 0 then none
    else some ((if 0 < y then π / 2 else -(π / 2)), π / 2 - Real.arccos z)
  else
    some (Real.arctan (y / x), π / 2 - Real.arccos z)

/-- The cos-zenith computed for each thrown direction at line 129 of
`Simulator.run`: `cosz = -np.sin(dec)`. -/
noncomputable def trial_cosz (dec : ℝ) : ℝ := -Real.sin dec

/-- Lines 131-137 of `Simulator.run`: if `cosz > self.max_cosz` then
`detection_prob = 0`, else
`detection_prob = effective_area.detection_probability(Etrue, cosz, max_energy)`.
The effective-area lookup `aeff` is an argument because the detector is
an opaque capability bundle. -/
noncomputable def detection_prob (aeff : ℝ → ℝ → ℝ → ℝ)
    (max_cosz Etrue max_energy dec : ℝ) : ℝ :=
  if trial_cosz dec > max_cosz then 0
  else aeff Etrue (trial_cosz dec) max_energy

/-- Elementwise `numpy` float division, exact over ℚ when the divisor is
non-zero; a zero divisor produces a non-finite IEEE value (NaN for
`0/0`, `±inf` otherwise), modelled as `none` — no exception is raised. -/
def npDiv (x y : ℚ) : Option ℚ := if y = 0 then none else some (x / y)

/-- `Simulator._get_expected_number`, lines 74-83: with the expected
counts `self._Nex` (produced by the external `NeutrinoCalculator`) given
as the argument `Nex`, the source weights are
`np.array(self._Nex) / sum(self._Nex)`.  The body contains no `raise`
and no guard on the denominator, so the function always returns
normally (`Except.ok`); the division is `npDiv` elementwise. -/
def get_source_weights (Nex : List ℚ) : Except SimError (List (Option ℚ)) :=
  Except.ok (Nex.map (fun x => npDiv x Nex.sum))

/-- Lines 101-107 of `Simulator.run`: `if not N:` draws
`np.random.poisson(sum(self._Nex))` (given here as the oracle draw
`poisson_draw`), `else` uses `int(N)`.  Python truthiness makes both
`N = None` and `N = 0` take the Poisson branch. -/
def determine_N (N : Option ℤ) (poisson_draw : ℕ) : ℤ :=
  match N with
  | none => (poisson_draw : ℤ)
  | some n => if n = 0 then (poisson_draw : ℤ) else n

/-- One pass of the rejection sub-loop body (lines 122-139 of
`Simulator.run`) for event `e` with chosen source index `lab`, starting
at attempt `k`, with explicit `fuel` bounding the number of attempts
(the source `while` loop is unbounded; `none` models exhausting the
budget without an acceptance): sample `Etrue` from the source's flux
model, throw a direction with `sphere_sample`, compute the detection
probability, and accept or retry on the Bernoulli draw. -/
noncomputable def rejection_loop (src : ℕ → SourceModel) (det : Detector)
    (o : RandomOracle) (max_cosz : ℝ) (e lab : ℕ) : ℕ → ℕ → Option Trial
  | _, 0 => none
  | k, fuel + 1 =>
    let s := src lab
    let Etrue := s.flux_sample e k
    let rd := sphere_sample 1 (o.sphere_u e k) (o.sphere_v e k)
    let p := detection_prob det.effective_area max_cosz Etrue s.upper_energy rd.2
    if o.flip e k p then some ⟨lab, Etrue, rd.1, rd.2⟩
    else rejection_loop src det o max_cosz e lab (k + 1) fuel

/-- The on-acceptance step, lines 141-157 of `Simulator.run`: append the
trial's true energy; append `Ereco = energy_resolution.sample(Etrue)`;
then, if the chosen source's `source_type == DIFFUSE`, append the trial's
own `(ra, dec)` to `coordinate`, `ra`, `dec`; otherwise (POINT) append
`angular_resolution.sample(Etrue, ra, dec)` to `coordinate` and the
trial's own `ra`, `dec` to `ra`, `dec`.  No branch appends to
`source_label`. -/
noncomputable def process_event (src : ℕ → SourceModel) (det : Detector)
    (t : Trial) (cat : Catalog) : Catalog :=
  let Ereco := det.energy_resolution t.Etrue
  if (src t.label).source_type = SourceType.DIFFUSE then
    { true_energy := cat.true_energy ++ [t.Etrue]
      reco_energy := cat.reco_energy ++ [Ereco]
      coordinate := cat.coordinate ++ [(t.ra, t.dec)]
      ra := cat.ra ++ [t.ra]
      dec := cat.dec ++ [t.dec]
      source_label := cat.source_label }
  else
    let r := det.angular_resolution t.Etrue t.ra t.dec
    { true_energy := cat.true_energy ++ [t.Etrue]
      reco_energy := cat.reco_energy ++ [Ereco]
      coordinate := cat.coordinate ++ [r]
      ra := cat.ra ++ [t.ra]
      dec := cat.dec ++ [t.dec]
      source_label := cat.source_label }

/-- The per-event loop of `Simulator.run` (lines 116-157) over the given
list of event indices: choose the source index with the oracle, run the
rejection sub-loop, and process the accepted trial; `none` if some
event's rejection sub-loop exhausts its attempt budget. -/
noncomputable def run_events (src : ℕ → SourceModel) (det : Detector)
    (o : RandomOracle) (max_cosz : ℝ) (fuel : ℕ) :
    List ℕ → Catalog → Option Catalog
  | [], cat => some cat
  | e :: rest, cat =>
    match rejection_loop src det o max_cosz e (o.label e) 0 fuel with
    | none => none
    | some t => run_events src det o max_cosz fuel rest (process_event src det t cat)

/-- `Simulator.run(N)`: determine the total event count with
`determine_N` and run the per-event loop over `range` of that count
(Python `range` of a negative integer is empty, matching `Int.toNat`). -/
noncomputable def Simulator.run (src : ℕ → SourceModel) (det : Detector)
    (o : RandomOracle) (max_cosz : ℝ) (N : Option ℤ)
    (poisson_draw fuel : ℕ) : Option Catalog :=
  run_events src det o max_cosz fuel
    (List.range (determine_N N poisson_draw).toNat) Catalog.empty

/-- The record `Simulator.save` writes: one named dataset per line of
lines 169-179 (`true_energy`, `reco_energy`, `ra`, `dec`, the flux
model's spectral `index`, and the `source_type` tag).  `coordinate` and
`source_label` are not written. -/
structure SavedFile where
  true_energy : List ℝ
  reco_energy : List ℝ
  ra : List ℝ
  dec : List ℝ
  index : ℝ
  source_type : SourceType

/-- `Simulator.save(filename)`, lines 160-179, as the pure record it
persists from the accumulated catalog (file I/O itself is out of
scope). -/
def Simulator.save (cat : Catalog) (index : ℝ) (st : SourceType) : SavedFile :=
  ⟨cat.true_energy, cat.reco_energy, cat.ra, cat.dec, index, st⟩

/-- `AngularResolution.sample(Etrue, ra, dec)` from
`angular_resolution.py`, lines 111-127.  After building the unit vector
the body evaluates `self._get_angular_resolution()` — omitting the
required `Etrue` argument of `_get_angular_resolution(self, Etrue)` — so
under Python call semantics every call raises `TypeError` before any
`kappa` is computed.  (The next line,
`kappa = 7552 * np.power(np.rad2deg(ang_res))`, also calls `np.power`
with a single argument, which would likewise raise `TypeError`, and
`sample_VMF` is never defined or imported.) -/
noncomputable def AngularResolution.sample (Etrue ra dec : ℝ) :
    Except PyError (ℝ × ℝ) :=
  let _unit_vector := icrs_to_unit_vector ra dec
  Except.error PyError.typeError

/-- The spec's formula for the Dispersion Sampler's concentration
parameter (spec section 4.3): `kappa = 7552 / ang_res_rad^2`.  Modelled
from the spec: the source line that should compute `kappa` raises
`TypeError` (see `AngularResolution.sample`), so the spec's words are
the only statement of the intended formula. -/
noncomputable def kappa_spec (ang_res_rad : ℝ) : ℝ := 7552 / ang_res_rad ^ 2

/-- A concrete opaque detector used to evaluate the engine on concrete
inputs: the effective area always reports probability `1`, energy
reconstruction is the identity, angular reconstruction returns the
input direction. -/
noncomputable def det0 : Detector :=
  ⟨fun _ _ _ => 1, fun E => E, fun _ ra dec => (ra, dec)⟩

/-- A single concrete DIFFUSE source whose flux model always returns
true energy `100`. -/
noncomputable def src0 : ℕ → SourceModel :=
  fun _ => ⟨SourceType.DIFFUSE, 1000, fun _ _ => 100⟩

/-- A concrete pair of sources: index `0` is DIFFUSE, every other index
is POINT; both flux models always return `100`. -/
noncomputable def srcDP : ℕ → SourceModel :=
  fun l => ⟨if l = 0 then SourceType.DIFFUSE else SourceType.POINT,
    1000, fun _ _ => 100⟩

/-- A concrete random-draw oracle: source index `0` for every event,
uniform draws `0`, and an acceptance draw that always accepts. -/
noncomputable def oracle0 : RandomOracle :=
  ⟨fun _ => 0, fun _ _ => 0, fun _ _ => 0, fun _ _ _ => true⟩

/-- The catalog produced by the concrete one-event run
`run_events src0 det0 oracle0 1 1 [0] Catalog.empty`. -/
noncomputable def cat0 : Catalog :=
  (run_events src0 det0 oracle0 1 1 [0] Catalog.empty).getD Catalog.empty

theorem list_sum_map_div (l : List ℚ) (s : ℚ) :
    (l.map (fun x => x / s)).sum = l.sum / s := by
  induction l with
  | nil => simp
  | cons a t ih => simp [ih, add_div]

theorem process_event_lengths (src : ℕ → SourceModel) (det : Detector)
    (t : Trial) (cat : Catalog) :
    (process_event src det t cat).true_energy.length = cat.true_energy.length + 1
    ∧ (process_event src det t cat).reco_energy.length = cat.reco_energy.length + 1
    ∧ (process_event src det t cat).coordinate.length = cat.coordinate.length + 1
    ∧ (process_event src det t cat).ra.length = cat.ra.length + 1
    ∧ (process_event src det t cat).dec.length = cat.dec.length + 1
    ∧ (process_event src det t cat).source_label = cat.source_label := by
  cases h : (src t.label).source_type <;> simp [process_event, h]

theorem run_events_lengths (src : ℕ → SourceModel) (det : Detector)
    (o : RandomOracle) (max_cosz : ℝ) (fuel : ℕ) :
    ∀ (events : List ℕ) (cat cat2 : Catalog),
      run_events src det o max_cosz fuel events cat = some cat2 →
      cat2.true_energy.length = cat.true_energy.length + events.length
      ∧ cat2.reco_energy.length = cat.reco_energy.length + events.length
      ∧ cat2.coordinate.length = cat.coordinate.length + events.length
      ∧ cat2.ra.length = cat.ra.length + events.length
      ∧ cat2.dec.length = cat.dec.length + events.length
      ∧ cat2.source_label = cat.source_label := by
  intro events
  induction events with
  | nil =>
    intro cat cat2 h
    simp only [run_events, Option.some.injEq] at h
    subst h
    simp
  | cons e rest ih =>
    intro cat cat2 h
    simp only [run_events] at h
    cases hr : rejection_loop src det o max_cosz e (o.label e) 0 fuel with
    | none => rw [hr] at h; simp at h
    | some t =>
      rw [hr] at h
      obtain ⟨a1, a2, a3, a4, a5, a6⟩ := ih (process_event src det t cat) cat2 h
      obtain ⟨b1, b2, b3, b4, b5, b6⟩ := process_event_lengths src det t cat
      refine ⟨?_, ?_, ?_, ?_, ?_, a6.trans b6⟩ <;> simp [List.length_cons] <;> omega

/-- C10: the `radius` parameter of `sphere_sample` has no effect on its
result — for any two radius values and identical underlying uniform
draws `(u, v)`, `sphere_sample` returns the same `(ra, dec)` pair. -/
theorem C10_sphere_sample_radius_independent (r1 r2 u v : ℝ) :
    sphere_sample r1 u v = sphere_sample r2 u v := rfl

/-- C4 counterexample: forcing `N = 0` does not make the run perform
`0` trials — `if not N:` treats `0` as unforced, so with a Poisson draw
of `7` the run uses `7`, not the forced `0`. -/
theorem C4_counterexample : determine_N (some 0) 7 = 7 ∧ (7 : ℤ) ≠ 0 := by
  decide

/-- C4 (amended): when the caller forces a non-zero total `N`, the run
uses exactly `int(N)`; when `N` is absent (`None`) or `0` (both falsy
in Python), the total is the Poisson draw with mean `sum(Nex)`. -/
theorem C4_forced_count (n : ℤ) (h : n ≠ 0) (d : ℕ) :
    determine_N (some n) d = n
    ∧ determine_N none d = (d : ℤ)
    ∧ determine_N (some 0) d = (d : ℤ) := by
  refine ⟨?_, rfl, rfl⟩
  simp [determine_N, h]

theorem C4_forced_count_witness :
    determine_N (some 5) 3 = 5
    ∧ determine_N none 3 = (3 : ℤ)
    ∧ determine_N (some 0) 3 = (3 : ℤ) :=
  C4_forced_count 5 (by decide) 3

/-- C3 counterexample: when every source's expected count is zero, the
weighting does not raise a DomainError/ConfigurationError — the body
has no guard and returns normally, the elementwise division `0/0`
producing NaN weights (modelled `none`). -/
theorem C3_counterexample :
    get_source_weights [0, 0] = Except.ok [none, none] := by
  have h : ([0, 0] : List ℚ).sum = 0 := by norm_num
  simp [get_source_weights, npDiv, h]

/-- C3 (amended): the weighting computes
`weight[i] = expected_count[i] / sum(expected_count)`; for a positive
total the weights are defined, non-negative, sum to exactly `1`, and a
zero expected count yields weight zero.  When the total is zero the
function does not raise: it returns normally with every weight NaN
(non-finite, modelled `none`). -/
theorem C3_weighting (Nex : List ℚ) :
    (0 < Nex.sum →
      get_source_weights Nex = Except.ok (Nex.map (fun x => some (x / Nex.sum)))
      ∧ (Nex.map (fun x => x / Nex.sum)).sum = 1
      ∧ (∀ x ∈ Nex, 0 ≤ x → 0 ≤ x / Nex.sum)
      ∧ (∀ x ∈ Nex, x = 0 → x / Nex.sum = 0))
    ∧ (Nex.sum = 0 →
      get_source_weights Nex = Except.ok (Nex.map (fun _ => none))) := by
  constructor
  · intro hs
    refine ⟨?_, ?_, ?_, ?_⟩
    · simp [get_source_weights, npDiv, hs.ne']
    · rw [list_sum_map_div, div_self hs.ne']
    · intro x _ hx
      exact div_nonneg hx hs.le
    · intro x _ hx
      rw [hx, zero_div]
  · intro hs
    simp [get_source_weights, npDiv, hs]

theorem C3_weighting_witness :
    get_source_weights [(1 : ℚ), 0, 3] =
      Except.ok ([(1 : ℚ), 0, 3].map (fun x => some (x / [(1 : ℚ), 0, 3].sum)))
    ∧ ([(1 : ℚ), 0, 3].map (fun x => x / [(1 : ℚ), 0, 3].sum)).sum = 1 :=
  ⟨((C3_weighting [1, 0, 3]).1 (by norm_num)).1,
   ((C3_weighting [1, 0, 3]).1 (by norm_num)).2.1⟩

/-- C2: for every trial, the cos-zenith of the thrown direction is
`-sin(dec)`; whenever it exceeds `max_cosz` the detection probability
is `0` for every effective-area model (the lookup is not consulted),
and otherwise it is the effective-area model's value at
`(Etrue, cosz, max_energy)`. -/
theorem C2_zenith_cut (max_cosz Etrue max_energy dec : ℝ) :
    trial_cosz dec = -Real.sin dec
    ∧ (trial_cosz dec > max_cosz →
        ∀ aeff, detection_prob aeff max_cosz Etrue max_energy dec = 0)
    ∧ (¬ trial_cosz dec > max_cosz →
        ∀ aeff, detection_prob aeff max_cosz Etrue max_energy dec
          = aeff Etrue (trial_cosz dec) max_energy) := by
  refine ⟨rfl, fun h aeff => ?_, fun h aeff => ?_⟩
  · simp [detection_prob, h]
  · simp [detection_prob, h]

theorem C2_zenith_cut_witness :
    detection_prob (fun _ _ _ => 1 / 2) (-1) 5 10 0 = 0
    ∧ detection_prob (fun _ _ _ => 1 / 2) 1 5 10 0 = 1 / 2 :=
  ⟨(C2_zenith_cut (-1) 5 10 0).2.1 (by norm_num [trial_cosz]) _,
   by simpa using (C2_zenith_cut 1 5 10 0).2.2 (by norm_num [trial_cosz]) _⟩

/-- C8: the Dispersion Sampler never computes a concentration parameter
at all — every call of `AngularResolution.sample` raises `TypeError`
(the body calls `_get_angular_resolution()` without its required
`Etrue` argument, and the `kappa` line calls `np.power` with a single
argument), diverging from the claimed `kappa = 7552 / ang_res_rad^2`. -/
theorem C8_dispersion_kappa_typeerror (Etrue ra dec : ℝ) :
    AngularResolution.sample Etrue ra dec = Except.error PyError.typeError :=
  rfl

theorem kappa_spec_antitone (r1 r2 : ℝ) (h1 : 0 < r1) (h12 : r1 < r2) :
    kappa_spec r2 < kappa_spec r1 := by
  unfold kappa_spec
  have h2 : (0 : ℝ) < r1 ^ 2 := by positivity
  have h3 : r1 ^ 2 < r2 ^ 2 := by nlinarith
  exact div_lt_div_of_pos_left (by norm_num) h2 h3

/-- C1: for every accepted trial, the appended reconstructed energy is
the detector energy-resolution model sampled at that trial's true
energy; if the selected source is DIFFUSE the appended reconstructed
coordinate is the trial's own true `(ra, dec)`, and if it is POINT the
appended reconstructed coordinate is the detector's dispersion sampler
applied to that same trial's true energy and true direction. -/
theorem C1_acceptance_reconstruction (src : ℕ → SourceModel) (det : Detector)
    (t : Trial) (cat : Catalog) :
    (process_event src det t cat).true_energy = cat.true_energy ++ [t.Etrue]
    ∧ (process_event src det t cat).reco_energy
        = cat.reco_energy ++ [det.energy_resolution t.Etrue]
    ∧ ((src t.label).source_type = SourceType.DIFFUSE →
        (process_event src det t cat).coordinate = cat.coordinate ++ [(t.ra, t.dec)])
    ∧ ((src t.label).source_type = SourceType.POINT →
        (process_event src det t cat).coordinate
          = cat.coordinate ++ [det.angular_resolution t.Etrue t.ra t.dec]) := by
  cases h : (src t.label).source_type <;> simp [process_event, h]

theorem C1_acceptance_reconstruction_witness :
    (process_event srcDP det0 ⟨0, 100, 1, 2⟩ Catalog.empty).coordinate
      = [((1 : ℝ), (2 : ℝ))]
    ∧ (process_event srcDP det0 ⟨1, 100, 1, 2⟩ Catalog.empty).coordinate
      = [det0.angular_resolution 100 1 2] := by
  constructor
  · simpa [Catalog.empty] using
      (C1_acceptance_reconstruction srcDP det0 ⟨0, 100, 1, 2⟩ Catalog.empty).2.2.1 rfl
  · simpa [Catalog.empty] using
      (C1_acceptance_reconstruction srcDP det0 ⟨1, 100, 1, 2⟩ Catalog.empty).2.2.2 rfl

/-- C9: for every accepted POINT-source event, the `ra` and `dec` lists
receive the trial's true direction (not the dispersion-smeared one),
the smeared direction goes only to the separate `coordinate` list, and
`save` persists exactly those true-direction `ra`/`dec` lists. -/
theorem C9_true_direction_persisted (src : ℕ → SourceModel) (det : Detector)
    (t : Trial) (cat : Catalog) (index : ℝ) (st : SourceType)
    (h : (src t.label).source_type = SourceType.POINT) :
    (process_event src det t cat).ra = cat.ra ++ [t.ra]
    ∧ (process_event src det t cat).dec = cat.dec ++ [t.dec]
    ∧ (process_event src det t cat).coordinate
        = cat.coordinate ++ [det.angular_resolution t.Etrue t.ra t.dec]
    ∧ (Simulator.save (process_event src det t cat) index st).ra
        = cat.ra ++ [t.ra]
    ∧ (Simulator.save (process_event src det t cat) index st).dec
        = cat.dec ++ [t.dec] := by
  simp [process_event, Simulator.save, h]

theorem C9_true_direction_persisted_witness :
    (process_event srcDP det0 ⟨1, 100, 1, 2⟩ Catalog.empty).ra = [(1 : ℝ)]
    ∧ (process_event srcDP det0 ⟨1, 100, 1, 2⟩ Catalog.empty).dec = [(2 : ℝ)]
    ∧ (Simulator.save (process_event srcDP det0 ⟨1, 100, 1, 2⟩ Catalog.empty)
        0 SourceType.POINT).ra = [(1 : ℝ)] := by
  have h := C9_true_direction_persisted srcDP det0 ⟨1, 100, 1, 2⟩ Catalog.empty
    0 SourceType.POINT rfl
  exact ⟨by simpa [Catalog.empty] using h.1, by simpa [Catalog.empty] using h.2.1,
    by simpa [Catalog.empty] using h.2.2.2.1⟩

/-- C5 counterexample: a run that accepts `N = 1` event leaves
`source_label` empty — the loop body never appends to it — so the five
sequences named by the claim do not all have length `N`. -/
theorem C5_counterexample :
    (Simulator.run src0 det0 oracle0 1 (some 1) 0 1).map
      (fun c => (c.ra.length, c.source_label.length)) = some (1, 0) := rfl

/-- C5 (amended): after a run that accepts `N` events, the `true_energy`,
`reco_energy`, `ra`, `dec` (and `coordinate`) sequences each have length
exactly `N`, while `source_label` — initialised but never appended to —
has length `0`, not `N`. -/
theorem C5_catalog_lengths (src : ℕ → SourceModel) (det : Detector)
    (o : RandomOracle) (max_cosz : ℝ) (fuel : ℕ) (events : List ℕ)
    (cat2 : Catalog)
    (h : run_events src det o max_cosz fuel events Catalog.empty = some cat2) :
    cat2.true_energy.length = events.length
    ∧ cat2.reco_energy.length = events.length
    ∧ cat2.ra.length = events.length
    ∧ cat2.dec.length = events.length
    ∧ cat2.coordinate.length = events.length
    ∧ cat2.source_label.length = 0 := by
  obtain ⟨a1, a2, a3, a4, a5, a6⟩ :=
    run_events_lengths src det o max_cosz fuel events Catalog.empty cat2 h
  simp [Catalog.empty] at a1 a2 a3 a4 a5 a6
  exact ⟨a1, a2, a4, a5, a3, by simp [a6]⟩

theorem C5_catalog_lengths_witness :
    cat0.true_energy.length = 1
    ∧ cat0.reco_energy.length = 1
    ∧ cat0.ra.length = 1
    ∧ cat0.dec.length = 1
    ∧ cat0.coordinate.length = 1
    ∧ cat0.source_label.length = 0 :=
  C5_catalog_lengths src0 det0 oracle0 1 1 [0] cat0 rfl

/-- C6 counterexample: the round-trip fails away from the `x > 0`
half-space because the code uses a single-argument arctangent — the
direction `(ra, dec) = (pi, 0)` converts to the unit vector
`(-1, 0, 0)` and back to `(0, 0)`, not `(pi, 0)`. -/
theorem C6_counterexample :
    unit_vector_to_icrs (icrs_to_unit_vector π 0) ≠ some (π, 0) := by
  have h1 : icrs_to_unit_vector π 0 = (-1, 0, 0) := by
    norm_num [icrs_to_unit_vector, Real.sin_pi_div_two, Real.cos_pi,
      Real.sin_pi, Real.cos_pi_div_two]
  have h2 : unit_vector_to_icrs (-1, 0, 0) = some (0, 0) := by
    norm_num [unit_vector_to_icrs, Real.arccos_zero, Real.arctan_zero,
      zero_div, sub_self]
  rw [h1, h2]
  intro hc
  simp only [Option.some.injEq, Prod.mk.injEq] at hc
  exact Real.pi_ne_zero hc.1.symm

/-- C6 (amended): for every direction with `ra` and `dec` both strictly
inside `(-pi/2, pi/2)` — the `x > 0` half-space where the single-argument
arctangent agrees with the four-quadrant one — converting to a unit
vector and back recovers `(ra, dec)` exactly; outside that half-space
the azimuth is not recovered (see the counterexample). -/
theorem C6_roundtrip (ra dec : ℝ) (hra1 : -(π / 2) < ra) (hra2 : ra < π / 2)
    (hdec1 : -(π / 2) < dec) (hdec2 : dec < π / 2) :
    unit_vector_to_icrs (icrs_to_unit_vector ra dec) = some (ra, dec) := by
  have hcd : 0 < Real.cos dec := Real.cos_pos_of_mem_Ioo ⟨hdec1, hdec2⟩
  have hcr : 0 < Real.cos ra := Real.cos_pos_of_mem_Ioo ⟨hra1, hra2⟩
  have hxne : Real.cos dec * Real.cos ra ≠ 0 := by positivity
  have hA : Real.arctan (Real.cos dec * Real.sin ra /
      (Real.cos dec * Real.cos ra)) = ra := by
    rw [mul_div_mul_left _ _ hcd.ne', ← Real.tan_eq_sin_div_cos]
    exact Real.arctan_tan hra1 hra2
  have hB : π / 2 - Real.arccos (Real.sin dec) = dec := by
    rw [Real.arccos_eq_pi_div_two_sub_arcsin, Real.arcsin_sin hdec1.le hdec2.le]
    ring
  simp only [icrs_to_unit_vector, unit_vector_to_icrs,
    Real.sin_pi_div_two_sub, Real.cos_pi_div_two_sub]
  rw [if_neg hxne, hA, hB]

theorem C6_roundtrip_witness :
    unit_vector_to_icrs (icrs_to_unit_vector 0 0) = some (0, 0) :=
  C6_roundtrip 0 0 (neg_lt_zero.mpr Real.pi_div_two_pos) Real.pi_div_two_pos
    (neg_lt_zero.mpr Real.pi_div_two_pos) Real.pi_div_two_pos

/-- C7 counterexample: at the pole unit vector `(0, 0, 1)` the
conversion does not return `ra = 0` — the azimuth is `arctan(0/0)`,
which is NaN under IEEE semantics (modelled `none`), so no finite
`(ra, dec)` pair is produced at all. -/
theorem C7_counterexample : unit_vector_to_icrs (0, 0, 1) = none := by
  simp [unit_vector_to_icrs]

/-- C7 (amended): for every unit vector with `x = y = 0` (the poles)
the conversion does not raise an exception, but its azimuth is the NaN
outcome of `arctan(0/0)` (modelled `none`) rather than the claimed
convention `ra = 0`. -/
theorem C7_pole_nan (z : ℝ) : unit_vector_to_icrs (0, 0, z) = none := by
  simp [unit_vector_to_icrs]
